import Mathlib

/-!
# ScanHistoryTable: polling, duration estimate and write-through actions

A shallow embedding of `frontend/src/ScanHistoryTable.js`.

* Component state (`useState` cells) is a record; every handler is a function
  from the state at the moment it runs, and from the outcome of each request it
  awaits, to the next state and the list of effects it performs.
* Clock readings (`Date.now()`) and `durationMs` are integers (milliseconds).
  An absent `durationMs` is `none`.
* `status` and `scanId` are strings, as in the JSON payload: the code compares
  `status` against string literals and has a fallback for unknown values.
-/

namespace ScanHistory

/-! ## DurationTimer (ScanHistoryTable.js, lines 240-272) -/

/-- JavaScript `x || 0` for an optional integer: an absent value and `0`
both give `0`, every other number is kept. -/
def orZero : Option Int → Int
  | none => 0
  | some d => d

/-- A mounted `DurationTimer`: the prop `initialDurationMs` captured by the
active effect closure, and the two `useState` cells. `startTimestamp` has no
setter in the source. -/
structure DurationTimer where
  initialDurationMs : Option Int
  duration : Int
  startTimestamp : Int
deriving DecidableEq, Repr

/-- First render at clock reading `now`:
`useState(initialDurationMs || 0)` and `useState(Date.now())`. -/
def DurationTimer.mount (initialDurationMs : Option Int) (now : Int) : DurationTimer :=
  { initialDurationMs := initialDurationMs
    duration := orZero initialDurationMs
    startTimestamp := now }

/-- The closure `updateDuration` run at clock reading `now`:
`elapsed = Date.now() - startTimestamp;
 setDuration((initialDurationMs || 0) + elapsed)`. -/
def DurationTimer.updateDuration (t : DurationTimer) (now : Int) : DurationTimer :=
  let elapsed := now - t.startTimestamp
  { t with duration := orZero t.initialDurationMs + elapsed }

/-- What happens to a mounted timer while its row stays RUNNING.
`tick now` is a call of `updateDuration` (the call made when the effect runs,
or a firing of its 1000 ms interval). `snapshot d now` is a re-render of the
row with `durationMs = d` from a newly applied poll response. -/
inductive TimerEvent where
  | tick (now : Int)
  | snapshot (d : Option Int) (now : Int)
deriving DecidableEq, Repr

/-- Clock reading at which an event happens. -/
def TimerEvent.now : TimerEvent → Int
  | .tick now => now
  | .snapshot _ now => now

/-- One event. The effect has dependencies `[initialDurationMs, startTimestamp]`:
a re-render with an unchanged prop does not re-run it; with a changed prop the
old interval is cleared and the effect runs again with the new prop, calling
`updateDuration()` at once. `startTimestamp` is never written. -/
def DurationTimer.step (t : DurationTimer) : TimerEvent → DurationTimer
  | .tick now => t.updateDuration now
  | .snapshot d now =>
      if d = t.initialDurationMs then t
      else DurationTimer.updateDuration { t with initialDurationMs := d } now

/-- State after a sequence of events. -/
def DurationTimer.run (t : DurationTimer) (events : List TimerEvent) : DurationTimer :=
  events.foldl DurationTimer.step t

/-- The values of `duration` rendered along a run: the value before the first
event, then the value after each event. -/
def DurationTimer.shown (t : DurationTimer) : List TimerEvent → List Int
  | [] => [t.duration]
  | e :: es => t.duration :: DurationTimer.shown (t.step e) es

/-- Clock readings never go back: each event happens no earlier than the one
before it, the first no earlier than `last`. -/
def clockOrdered : Int → List TimerEvent → Bool
  | _, [] => true
  | last, e :: es => decide (last ≤ e.now) && clockOrdered e.now es

/-- Server-reported durations never go back: each snapshot value (absent read
as 0) is at least the previous one, the first at least `last`. -/
def snapshotsOrdered : Int → List TimerEvent → Bool
  | _, [] => true
  | last, .tick _ :: es => snapshotsOrdered last es
  | last, .snapshot d _ :: es => decide (last ≤ orZero d) && snapshotsOrdered (orZero d) es

/-- The estimate the spec asks for, following its words: a function of the
last snapshot `d`, the local time `r` at which it was received, and `now`. -/
def specEstimate (d : Option Int) (r now : Int) : Int :=
  orZero d + (now - r)

/-- The estimate described by the comment at the head of the effect (lines
245-246): the initial duration from the server, `d0`, plus the time elapsed
since the component was mounted at `t0`. -/
def documentedEstimate (d0 : Option Int) (t0 now : Int) : Int :=
  orZero d0 + (now - t0)

/-! ## ScanHistoryTable: data and state (lines 4-7) -/

/-- The fields of a history item that the modelled code reads. -/
structure ScanJob where
  scanId : String
  status : String
  durationMs : Option Int
deriving DecidableEq, Repr

/-- The three `useState` cells of `ScanHistoryTable`. -/
structure TableState where
  history : List ScanJob
  loading : Bool
  error : Option String
deriving DecidableEq, Repr

/-- State at mount: `useState([])`, `useState(true)`, `useState(null)`. -/
def TableState.init : TableState :=
  { history := [], loading := true, error := none }

/-- An observable action of a handler, in the order performed. -/
inductive Effect where
  | fetch (method : String) (url : String)
  | confirm (message : String)
  | alert (message : String)
deriving DecidableEq, Repr

/-- Whether an effect is a network request. -/
def Effect.isRequest : Effect → Bool
  | .fetch _ _ => true
  | _ => false

/-- Whether an effect is a blocking notification (`alert`). -/
def Effect.isAlert : Effect → Bool
  | .alert _ => true
  | _ => false

/-! ## fetchHistory (lines 15-28) -/

/-- How `GET /api/analysis/history` can end: `fetch` rejects with an error,
the response has `ok = false`, the response is ok but `response.json()`
rejects, or the response is ok and carries a list. -/
inductive HistoryResponse where
  | threw (message : String)
  | notOk
  | badBody (message : String)
  | ok (data : List ScanJob)
deriving DecidableEq, Repr

/-- Whether the refresh succeeded: a 2xx answer carrying a list. -/
def HistoryResponse.isOk : HistoryResponse → Bool
  | .ok _ => true
  | _ => false

/-- The request `fetchHistory` issues. -/
def fetchHistoryRequest : Effect :=
  .fetch "GET" "/api/analysis/history"

/-- The part of `fetchHistory` after `await fetch(...)`, applied to the state
current when the response is delivered. On success `setHistory(data);
setLoading(false)`; on any failure `setError(err.message); setLoading(false)`,
where a non-ok response throws `Error('Failed to fetch history')`. -/
def fetchHistoryResume (s : TableState) : HistoryResponse → TableState
  | .ok data => { s with history := data, loading := false }
  | .notOk => { s with error := some "Failed to fetch history", loading := false }
  | .threw message => { s with error := some message, loading := false }
  | .badBody message => { s with error := some message, loading := false }

/-- A whole call of `fetchHistory`: the request, then the state update. -/
def fetchHistory (s : TableState) (r : HistoryResponse) : TableState × List Effect :=
  (fetchHistoryResume s r, [fetchHistoryRequest])

/-! ## handleCancel and handleDelete (lines 30-57) -/

/-- How a cancel or delete request can end: `fetch` rejects, or a response
arrives with the given `ok` flag. -/
inductive WriteResponse where
  | threw (message : String)
  | status (ok : Bool)
deriving DecidableEq, Repr

/-- Whether the write-through failed: the request threw or the answer was
not 2xx. -/
def WriteResponse.failed : WriteResponse → Bool
  | .threw _ => true
  | .status ok => !ok

/-- The handler `handleCancel(scanId)`. `refresh` is the outcome of the
`fetchHistory()` call it makes when the answer is ok. -/
def handleCancel (s : TableState) (scanId : String) (resp : WriteResponse)
    (refresh : HistoryResponse) : TableState × List Effect :=
  let request := Effect.fetch "POST" ("/api/analysis/history/" ++ scanId ++ "/cancel")
  match resp with
  | .status true =>
      let (s1, effects) := fetchHistory s refresh
      (s1, request :: effects)
  | .status false => (s, [request])
  | .threw message => (s, [request, .alert ("Ошибка при остановке анализа: " ++ message)])

/-- The handler `handleDelete(scanId)`. `confirmed` is the answer of
`window.confirm`; `refresh` is the outcome of the `fetchHistory()` call made
when the answer is ok. -/
def handleDelete (s : TableState) (scanId : String) (confirmed : Bool)
    (resp : WriteResponse) (refresh : HistoryResponse) : TableState × List Effect :=
  let ask := Effect.confirm "Вы уверены, что хотите удалить этот анализ?"
  if !confirmed then (s, [ask])
  else
    let request := Effect.fetch "DELETE" ("/api/analysis/history/" ++ scanId)
    match resp with
    | .status true =>
        let (s1, effects) := fetchHistory s refresh
        (s1, ask :: request :: effects)
    | .status false => (s, [ask, request])
    | .threw message => (s, [ask, request, .alert ("Ошибка при удалении: " ++ message)])

/-! ## Rendering (lines 81-93, 108-238) -/

/-- The function `formatDuration(ms)`: `'0с'` when `ms` is absent, zero or
negative; otherwise minutes and seconds of `Math.floor(ms / 1000)`. -/
def formatDuration (ms : Option Int) : String :=
  match ms with
  | none => "0с"
  | some ms =>
    if ms = 0 ∨ ms < 0 then "0с"
    else
      let totalSeconds := ms / 1000
      let minutes := totalSeconds / 60
      let seconds := totalSeconds % 60
      if minutes > 0 then toString minutes ++ "м " ++ toString seconds ++ "с"
      else toString seconds ++ "с"

/-- The copy of `formatDuration` declared inside `DurationTimer`
(lines 257-269). -/
def DurationTimer.formatDuration (ms : Option Int) : String :=
  match ms with
  | none => "0с"
  | some ms =>
    if ms = 0 ∨ ms < 0 then "0с"
    else
      let totalSeconds := ms / 1000
      let minutes := totalSeconds / 60
      let seconds := totalSeconds % 60
      if minutes > 0 then toString minutes ++ "м " ++ toString seconds ++ "с"
      else toString seconds ++ "с"

/-- Text of the `<span className="duration-timer">` a timer returns:
`formatDuration(duration)`, with the inner copy. -/
def DurationTimer.render (t : DurationTimer) : String :=
  DurationTimer.formatDuration (some t.duration)

/-- Names of the members every object literal inherits from
`Object.prototype` (ECMAScript, with the legacy accessors of browsers). A lookup
`map[key]` with one of these keys finds the inherited member, a function or an
object, which is truthy: `map[key] || fallback` then does not reach the
fallback. -/
def objectPrototypeKeys : List String :=
  [ "constructor", "hasOwnProperty", "isPrototypeOf", "propertyIsEnumerable",
    "toLocaleString", "toString", "valueOf", "__proto__",
    "__defineGetter__", "__defineSetter__", "__lookupGetter__", "__lookupSetter__" ]

/-- The function `getStatusBadge(status)`: CSS class and text of the badge.
Under an inherited key `statusMap[status]` is the inherited member, which has
neither `class` nor `text`: the class is printed as `undefined` and no text is
rendered. -/
def getStatusBadge (status : String) : String × String :=
  if status = "RUNNING" then ("status-running", "Выполняется")
  else if status = "COMPLETED" then ("status-completed", "Завершен")
  else if status = "FAILED" then ("status-failed", "Ошибка")
  else if status = "CANCELLED" then ("status-cancelled", "Отменен")
  else if status = "PENDING" then ("status-pending", "Ожидание")
  else if status ∈ objectPrototypeKeys then ("undefined", "")
  else ("status-unknown", status)

/-- Content of the duration cell: a live `DurationTimer` element with its
prop, or a fixed text. -/
inductive DurationCell where
  | timer (initialDurationMs : Option Int)
  | text (value : String)
deriving DecidableEq, Repr

/-- A button of the actions cell, with the call its `onClick` makes. -/
inductive Action where
  | view (scanId : String)
  | openReport (url : String)
  | downloadPdf (scanId : String)
  | cancel (scanId : String)
  | delete (scanId : String)
deriving DecidableEq, Repr

/-- Buttons of a row, in document order: four report buttons when the status
is COMPLETED, the cancel button when the status is RUNNING, and the delete
button always. -/
def rowActions (item : ScanJob) : List Action :=
  (if item.status = "COMPLETED" then
      [ .view item.scanId,
        .openReport ("/api/reports/" ++ item.scanId ++ "/HTML"),
        .openReport ("/api/reports/" ++ item.scanId ++ "/JSON_EXTENDED"),
        .downloadPdf item.scanId ]
    else [])
  ++ (if item.status = "RUNNING" then [.cancel item.scanId] else [])
  ++ [.delete item.scanId]

/-- Whether the row of `item` offers the cancel button. -/
def cancelOffered (item : ScanJob) : Bool :=
  decide (Action.cancel item.scanId ∈ rowActions item)

/-- One rendered `<tr>`: its key, status badge, duration cell and buttons.
The start-time, bank and description cells are presentation only and are
left out. -/
structure Row where
  key : String
  badge : String × String
  duration : DurationCell
  actions : List Action
deriving DecidableEq, Repr

/-- Body of `history.map((item) => ...)` for one item. -/
def renderRow (item : ScanJob) : Row :=
  let duration := orZero item.durationMs
  { key := item.scanId
    badge := getStatusBadge item.status
    duration :=
      if item.status = "RUNNING" then .timer item.durationMs
      else .text (formatDuration (some duration))
    actions := rowActions item }

/-- What the component returns. -/
inductive View where
  | loading
  | error (message : String)
  | empty
  | table (rows : List Row)
deriving DecidableEq, Repr

/-- JavaScript truthiness of the `error` cell: `null` and the empty string
are falsy. -/
def errorShown : Option String → Option String
  | none => none
  | some message => if message = "" then none else some message

/-- The view selection of lines 120-130 followed by the table of lines
132-237. -/
def render (s : TableState) : View :=
  if s.loading then .loading
  else
    match errorShown s.error with
    | some message => .error message
    | none =>
      if s.history.length = 0 then .empty
      else .table (s.history.map renderRow)

/-- Rows on screen, top to bottom; none unless the table is shown. -/
def View.rows : View → List Row
  | .table rows => rows
  | _ => []

/-! ## Poll responses in flight (lines 9-13 with 15-28) -/

/-- A poll response labelled with the position of its request in issue order.
The label is a ghost value: the code neither creates nor reads it. -/
structure TaggedResponse where
  seq : Nat
  response : HistoryResponse
deriving DecidableEq, Repr

/-- State after the given responses are delivered, first to last: each
delivery resumes its own `fetchHistory` call on the current state. -/
def deliver (s : TableState) (deliveries : List TaggedResponse) : TableState :=
  deliveries.foldl (fun st d => fetchHistoryResume st d.response) s

/-- Payload of the successful delivery made last, if any. -/
def lastDelivered : List TaggedResponse → Option (List ScanJob)
  | [] => none
  | d :: ds =>
    match lastDelivered ds with
    | some data => some data
    | none =>
      match d.response with
      | .ok data => some data
      | _ => none

/-- The collection the spec asks for under monotonic apply, following its
words: the payload of the delivered response with the highest sequence tag
(none before any delivery). -/
def highestTagPayload : List TaggedResponse → Option (Nat × List ScanJob)
  | [] => none
  | d :: ds =>
    match d.response, highestTagPayload ds with
    | .ok data, some (n, best) => if n < d.seq then some (d.seq, data) else some (n, best)
    | .ok data, none => some (d.seq, data)
    | _, best => best

/-! ## Poll lifecycle (lines 9-13) -/

/-- One `ScanHistoryTable` instance over its life. `state` holds the cells as
written by the setter calls of the component, `interval` tells whether the
interval created by the effect is still set, `inFlight` counts the
`fetchHistory` calls waiting at `await fetch(...)`, `requests` lists the
requests issued so far and `resumed` counts the `fetchHistory` continuations
that have run, each of which calls the setters. -/
structure Poller where
  mounted : Bool
  state : TableState
  interval : Bool
  inFlight : Nat
  requests : List Effect
  resumed : Nat
deriving DecidableEq, Repr

/-- An event in the life of the instance: the 2000 ms timer elapses, the
response of a request in flight arrives, or the view is unmounted. -/
inductive PollEvent where
  | timer
  | deliver (r : HistoryResponse)
  | unmount
deriving DecidableEq, Repr

/-- Mount: the cells get their initial values and the effect runs
`fetchHistory()` once, then `setInterval(fetchHistory, 2000)`. -/
def Poller.mount : Poller :=
  { mounted := true
    state := TableState.init
    interval := true
    inFlight := 1
    requests := [fetchHistoryRequest]
    resumed := 0 }

/-- One event.
* `timer`: a set interval calls `fetchHistory`, which issues its request; a
  cleared interval calls nothing.
* `deliver r`: the continuation of one waiting `fetchHistory` runs (lines
  18-27) and makes its setter calls. The code has no abort and no test for
  unmount, so the calls are the same before and after unmount; `state` holds
  the cells as written by these calls.
* `unmount`: the cleanup `() => clearInterval(interval)` runs; it does
  nothing else. -/
def Poller.step (p : Poller) : PollEvent → Poller
  | .timer =>
      if p.interval then
        { p with inFlight := p.inFlight + 1, requests := p.requests ++ [fetchHistoryRequest] }
      else p
  | .deliver r =>
      if p.inFlight = 0 then p
      else
        { p with
          inFlight := p.inFlight - 1
          resumed := p.resumed + 1
          state := fetchHistoryResume p.state r }
  | .unmount => { p with mounted := false, interval := false }

/-- State after a sequence of events. -/
def Poller.run (p : Poller) (events : List PollEvent) : Poller :=
  events.foldl Poller.step p

/-! ## Report download from the table (lines 59-79, 194, 201) -/

/-- An observable action of a report download, in the order performed.
`createObjectURL blob url` is the call `window.URL.createObjectURL(blob)`
returning `url`; `linkAppend`, `linkClick` and `linkRemove` are the three
steps with the `<a>` element whose `href` and `download` are given; `openTab`
is `window.open(url, '_blank')`. -/
inductive ReportEffect where
  | fetch (url : String)
  | createObjectURL (blob : List Nat) (url : String)
  | linkAppend (href : String) (download : String)
  | linkClick (href : String) (download : String)
  | linkRemove
  | revokeObjectURL (url : String)
  | openTab (url : String)
  | consoleError (label : String) (message : String)
  | alert (message : String)
deriving DecidableEq, Repr

/-- Object URLs created by a run, in order. -/
def ReportEffect.created : List ReportEffect → List String
  | [] => []
  | .createObjectURL _ url :: es => url :: ReportEffect.created es
  | _ :: es => ReportEffect.created es

/-- Object URLs revoked by a run, in order. -/
def ReportEffect.revoked : List ReportEffect → List String
  | [] => []
  | .revokeObjectURL url :: es => url :: ReportEffect.revoked es
  | _ :: es => ReportEffect.revoked es

/-- Requests whose body is fetched by a run, in order. -/
def ReportEffect.fetched : List ReportEffect → List String
  | [] => []
  | .fetch url :: es => url :: ReportEffect.fetched es
  | _ :: es => ReportEffect.fetched es

/-- Alerts raised by a run, in order. -/
def ReportEffect.alerts : List ReportEffect → List String
  | [] => []
  | .alert message :: es => message :: ReportEffect.alerts es
  | _ :: es => ReportEffect.alerts es

/-- How the PDF request can end: `fetch` rejects, the response has
`ok = false`, the response is ok but `response.blob()` rejects, or the
response is ok and its body is read. -/
inductive PdfResponse where
  | threw (message : String)
  | notOk
  | badBody (message : String)
  | ok (blob : List Nat)
deriving DecidableEq, Repr

/-- The steps of both PDF paths after a body is read: create the object URL
(`objectUrl` is the value the browser returns), build the link, append it,
click it, remove it, revoke the URL. -/
def saveBlob (scanId : String) (blob : List Nat) (objectUrl : String) : List ReportEffect :=
  [ .createObjectURL blob objectUrl,
    .linkAppend objectUrl ("report-" ++ scanId ++ ".pdf"),
    .linkClick objectUrl ("report-" ++ scanId ++ ".pdf"),
    .linkRemove,
    .revokeObjectURL objectUrl ]

/-- The handler `handleDownloadPdf(scanId)`. -/
def handleDownloadPdf (scanId : String) (resp : PdfResponse) (objectUrl : String) :
    List ReportEffect :=
  let url := "/api/reports/" ++ scanId ++ "/PDF"
  let failure (message : String) : List ReportEffect :=
    [ .consoleError "Error downloading PDF:" message,
      .alert ("Ошибка при скачивании PDF: " ++ message) ]
  .fetch url ::
    match resp with
    | .ok blob => saveBlob scanId blob objectUrl
    | .notOk => failure "Failed to download PDF"
    | .threw message => failure message
    | .badBody message => failure message

/-- What a click on a button of the actions cell does to reports: the HTML
and JSON buttons call `window.open`, the PDF button calls
`handleDownloadPdf`; the other buttons touch no report. -/
def Action.report (resp : PdfResponse) (objectUrl : String) : Action → List ReportEffect
  | .openReport url => [.openTab url]
  | .downloadPdf scanId => handleDownloadPdf scanId resp objectUrl
  | _ => []

end ScanHistory

/-! # ResultsPage

A shallow embedding of `frontend/src/ResultsPage.js`: severity classes, the
sections of a loaded result, and `downloadReport`. -/

namespace ResultsPage

open ScanHistory (ReportEffect PdfResponse saveBlob objectPrototypeKeys)

/-! ## getSeverityClass (lines 68-77) -/

/-- Value of `severityMap[severity] || 'severity-info'`: a class name, or the
member of `Object.prototype` found under an inherited key (printed into the
class attribute as the source text of that member). -/
inductive ClassValue where
  | str (name : String)
  | inherited (key : String)
deriving DecidableEq, Repr

/-- The function `getSeverityClass(severity)`. An absent severity looks up the
key `undefined` or `null`, which the map does not have. -/
def getSeverityClass (severity : Option String) : ClassValue :=
  match severity with
  | none => .str "severity-info"
  | some key =>
    if key = "CRITICAL" then .str "severity-critical"
    else if key = "HIGH" then .str "severity-high"
    else if key = "MEDIUM" then .str "severity-medium"
    else if key = "LOW" then .str "severity-low"
    else if key = "INFO" then .str "severity-info"
    else if key ∈ objectPrototypeKeys then .inherited key
    else .str "severity-info"

/-! ## Result payload and page (lines 9-11, 87-227) -/

/-- A vulnerability of the payload; every field may be absent. -/
structure Vulnerability where
  severity : Option String
  owaspCategory : Option String
  title : Option String
  description : Option String
  endpoint : Option String
  method : Option String
  evidence : Option String
  recommendation : Option String
deriving DecidableEq, Repr

/-- A contract mismatch of the payload. -/
structure Mismatch where
  endpoint : Option String
  method : Option String
  type : Option String
  expected : Option String
  actual : Option String
  message : Option String
deriving DecidableEq, Repr

/-- The fields of the result payload that the modelled code reads. -/
structure ScanResult where
  totalEndpoints : Option Int
  vulnerabilities : Option (List Vulnerability)
  contractMismatches : Option (List Mismatch)
  summary : Option String
deriving DecidableEq, Repr

/-- JavaScript truthiness of an optional string: absent and empty are
falsy. -/
def truthy : Option String → Option String
  | none => none
  | some text => if text = "" then none else some text

/-- One `<div className="vulnerability ...">`: class of the card and of the
badge, badge text, header fields, and the optional paragraphs that are
rendered only when their field is truthy. -/
structure VulnCard where
  className : ClassValue
  badgeClass : ClassValue
  badgeText : Option String
  owaspCategory : Option String
  title : Option String
  description : Option String
  endpoint : Option (Option String × String)
  evidence : Option String
  recommendation : Option String
deriving DecidableEq, Repr

/-- Body of `result.vulnerabilities.map((vuln, idx) => ...)` for one item. -/
def renderVulnerability (vuln : Vulnerability) : VulnCard :=
  { className := getSeverityClass vuln.severity
    badgeClass := getSeverityClass vuln.severity
    badgeText := vuln.severity
    owaspCategory := vuln.owaspCategory
    title := vuln.title
    description := vuln.description
    endpoint := (truthy vuln.endpoint).map (fun e => (vuln.method, e))
    evidence := truthy vuln.evidence
    recommendation := truthy vuln.recommendation }

/-- The results section of the page for a loaded result: three of the summary
cards (the analysis-time card prints a decimal fraction and is left out), the
summary box, the vulnerabilities section, the mismatches table and the
"no issues" block, each absent when its guard fails. -/
structure Page where
  endpointsCard : Int
  vulnerabilitiesCard : Nat
  mismatchesCard : Nat
  summaryBox : Option String
  vulnerabilitiesSection : Option (List VulnCard)
  mismatchesSection : Option (List Mismatch)
  noIssues : Bool
deriving DecidableEq, Repr

/-- Lines 128-225 for a loaded `result`. -/
def renderResult (result : ScanResult) : Page :=
  { endpointsCard :=
      match result.totalEndpoints with
      | some n => n
      | none => 0
    vulnerabilitiesCard :=
      match result.vulnerabilities with
      | some vs => vs.length
      | none => 0
    mismatchesCard :=
      match result.contractMismatches with
      | some ms => ms.length
      | none => 0
    summaryBox := truthy result.summary
    vulnerabilitiesSection :=
      match result.vulnerabilities with
      | some vs => if vs.length > 0 then some (vs.map renderVulnerability) else none
      | none => none
    mismatchesSection :=
      match result.contractMismatches with
      | some ms => if ms.length > 0 then some ms else none
      | none => none
    noIssues :=
      (match result.vulnerabilities with
       | some vs => decide (vs.length = 0)
       | none => true)
      && (match result.contractMismatches with
          | some ms => decide (ms.length = 0)
          | none => true) }

/-- The three `useState` cells of `ResultsPage`. -/
structure State where
  result : Option ScanResult
  loading : Bool
  error : Option String
deriving DecidableEq, Repr

/-- What the component returns. -/
inductive View where
  | loading
  | error (message : String)
  | page (p : Page)
deriving DecidableEq, Repr

/-- The view selection of lines 87-107 followed by the page. -/
def render (s : State) : View :=
  if s.loading then .loading
  else
    match truthy s.error, s.result with
    | some message, _ => .error message
    | none, none => .error "Результаты не найдены"
    | none, some result => .page (renderResult result)

/-! ## downloadReport (lines 32-66) -/

/-- The argument of `downloadReport`; the three buttons pass `'html'`,
`'json'` and `'pdf'`. -/
inductive ReportFormat where
  | html
  | json
  | pdf
deriving DecidableEq, Repr

/-- The table `formatMap`. -/
def formatMap : ReportFormat → String
  | .html => "HTML"
  | .json => "JSON_EXTENDED"
  | .pdf => "PDF"

/-- The function `downloadReport(format)` of the page for `scanId`. -/
def downloadReport (scanId : String) (format : ReportFormat) (resp : PdfResponse)
    (objectUrl : String) : List ReportEffect :=
  let reportType := formatMap format
  let url := "/api/reports/" ++ scanId ++ "/" ++ reportType
  let failure (message : String) : List ReportEffect :=
    [ .consoleError "Error downloading report:" message,
      .alert ("Ошибка при скачивании отчета: " ++ message) ]
  if format = .pdf then
    .fetch url ::
      match resp with
      | .ok blob => saveBlob scanId blob objectUrl
      | .notOk => failure "Failed to download PDF"
      | .threw message => failure message
      | .badBody message => failure message
  else [.openTab url]

end ResultsPage

namespace ScanHistory

/-! ## Shared lemmas -/

theorem step_startTimestamp (t : DurationTimer) (e : TimerEvent) :
    (t.step e).startTimestamp = t.startTimestamp := by
  cases e with
  | tick now => rfl
  | snapshot d now =>
    simp only [DurationTimer.step]
    split <;> rfl

theorem run_startTimestamp (t : DurationTimer) (events : List TimerEvent) :
    (t.run events).startTimestamp = t.startTimestamp := by
  induction events generalizing t with
  | nil => rfl
  | cons e es ih =>
    simp only [DurationTimer.run, List.foldl_cons] at ih ⊢
    rw [ih, step_startTimestamp]

theorem run_ticks_initialDurationMs (t : DurationTimer) (ticks : List Int) :
    (t.run (ticks.map TimerEvent.tick)).initialDurationMs = t.initialDurationMs := by
  induction ticks generalizing t with
  | nil => rfl
  | cons x xs ih =>
    simp only [DurationTimer.run, List.map_cons, List.foldl_cons] at ih ⊢
    rw [ih]
    rfl

/-- After any event the timer shows the current prop plus the time since
mount, unless the event was a re-render with an unchanged prop. -/
theorem step_duration_le (t : DurationTimer) (e : TimerEvent) (last : Int)
    (hinv : t.duration ≤ orZero t.initialDurationMs + (last - t.startTimestamp))
    (hclock : last ≤ e.now)
    (hsnap : snapshotsOrdered (orZero t.initialDurationMs) [e] = true) :
    t.duration ≤ (t.step e).duration
    ∧ (t.step e).duration
        ≤ orZero (t.step e).initialDurationMs + (e.now - (t.step e).startTimestamp) := by
  cases e with
  | tick now =>
    simp only [TimerEvent.now] at hclock
    simp only [DurationTimer.step, DurationTimer.updateDuration, TimerEvent.now]
    constructor <;> omega
  | snapshot d now =>
    simp only [TimerEvent.now] at hclock
    simp only [snapshotsOrdered, Bool.and_true, decide_eq_true_eq] at hsnap
    simp only [DurationTimer.step, TimerEvent.now]
    split
    · constructor <;> omega
    · simp only [DurationTimer.updateDuration]
      constructor <;> omega

theorem step_snapshotsOrdered (t : DurationTimer) (e : TimerEvent) (es : List TimerEvent)
    (hsnap : snapshotsOrdered (orZero t.initialDurationMs) (e :: es) = true) :
    snapshotsOrdered (orZero t.initialDurationMs) [e] = true
    ∧ snapshotsOrdered (orZero (t.step e).initialDurationMs) es = true := by
  cases e with
  | tick now =>
    simp only [snapshotsOrdered] at hsnap
    exact ⟨by simp [snapshotsOrdered], by simpa [DurationTimer.step, DurationTimer.updateDuration] using hsnap⟩
  | snapshot d now =>
    simp only [snapshotsOrdered, Bool.and_eq_true, decide_eq_true_eq] at hsnap
    refine ⟨by simpa [snapshotsOrdered] using hsnap.1, ?_⟩
    simp only [DurationTimer.step]
    split
    · rename_i h
      rw [← h]
      exact hsnap.2
    · simpa [DurationTimer.updateDuration] using hsnap.2

theorem shown_chain (t : DurationTimer) (events : List TimerEvent) (last x : Int)
    (hx : x ≤ t.duration)
    (hinv : t.duration ≤ orZero t.initialDurationMs + (last - t.startTimestamp))
    (hclock : clockOrdered last events = true)
    (hsnap : snapshotsOrdered (orZero t.initialDurationMs) events = true) :
    List.Chain (· ≤ ·) x (t.shown events) := by
  induction events generalizing t last x with
  | nil => exact List.Chain.cons hx List.Chain.nil
  | cons e es ih =>
    simp only [clockOrdered, Bool.and_eq_true, decide_eq_true_eq] at hclock
    obtain ⟨hs1, hs2⟩ := step_snapshotsOrdered t e es hsnap
    obtain ⟨hle, hinv2⟩ := step_duration_le t e last hinv hclock.1 hs1
    exact List.Chain.cons hx (ih (t.step e) e.now t.duration hle hinv2 hclock.2 hs2)

/-! ## DurationTimer -/

/-- While the prop is still the first snapshot `d` (only interval ticks since
the mount at `t0`), every call of `updateDuration` at clock reading `tNow`
sets the estimate to `d + (tNow - t0)`, the documented estimate; with
`d = 5000` and `tNow = t0 + 3000` this is 8000. -/
theorem durationTimer_estimate (d : Option Int) (t0 : Int) (ticks : List Int) (tNow : Int) :
    (((DurationTimer.mount d t0).run (ticks.map TimerEvent.tick)).updateDuration tNow).duration
        = orZero d + (tNow - t0)
    ∧ (((DurationTimer.mount (some 5000) t0).run (ticks.map TimerEvent.tick)).updateDuration
        (t0 + 3000)).duration = 8000
    ∧ (((DurationTimer.mount none t0).run (ticks.map TimerEvent.tick)).updateDuration
        tNow).duration = tNow - t0 := by
  have key : ∀ d : Option Int, ∀ now : Int,
      (((DurationTimer.mount d t0).run (ticks.map TimerEvent.tick)).updateDuration now).duration
        = orZero d + (now - t0) := by
    intro d now
    simp only [DurationTimer.updateDuration, run_ticks_initialDurationMs, run_startTimestamp]
    rfl
  refine ⟨key d tNow, ?_, ?_⟩
  · rw [key]
    simp only [orZero]
    omega
  · rw [key]
    simp only [orZero]
    omega

/-- C1 (the code at the failing input): a timer mounted at clock reading 0
with first snapshot 5000 is re-rendered with the snapshot 7000 at 2000. The
update at 3000 sets the estimate to 7000 + (3000 - 0) = 10000, not to the first
snapshot plus the time since mount, 5000 + (3000 - 0) = 8000, which is also
the estimate the comment of the effect documents. Before the re-render the
update at 2000 does give 5000 + 2000 = 7000. -/
theorem durationTimer_estimate_after_snapshot :
    ((DurationTimer.mount (some 5000) 0).run [.tick 2000]).duration = 7000
    ∧ ((DurationTimer.mount (some 5000) 0).run
        [.tick 2000, .snapshot (some 7000) 2000, .tick 3000]).duration = 10000
    ∧ ((DurationTimer.mount (some 5000) 0).run
        [.tick 2000, .snapshot (some 7000) 2000, .tick 3000]).startTimestamp = 0
    ∧ documentedEstimate (some 5000) 0 3000 = 8000
    ∧ ((DurationTimer.mount (some 5000) 0).run
        [.tick 2000, .snapshot (some 7000) 2000, .tick 3000]).duration
        ≠ documentedEstimate (some 5000) 0 3000 := by
  decide

/-- C2 (the code at the failing input): with clock readings in order, a timer
mounted at 0 with snapshot 5000 shows 6000 at the tick of 1000 and, when it is
re-rendered with the snapshot 1000 at 2000, shows 1000 + (2000 - 0) = 3000: the
shown estimate decreases, although `startTimestamp` is still 0. The estimate
the comment of the effect documents is 5000 + (2000 - 0) = 7000 there, with no
decrease. -/
theorem durationTimer_decrease_example :
    clockOrdered 0 [.tick 1000, .snapshot (some 1000) 2000] = true
    ∧ (DurationTimer.mount (some 5000) 0).shown [.tick 1000, .snapshot (some 1000) 2000]
        = [5000, 6000, 3000]
    ∧ ¬ List.Pairwise (· ≤ ·)
        ((DurationTimer.mount (some 5000) 0).shown [.tick 1000, .snapshot (some 1000) 2000])
    ∧ ((DurationTimer.mount (some 5000) 0).run
        [.tick 1000, .snapshot (some 1000) 2000]).startTimestamp = 0
    ∧ documentedEstimate (some 5000) 0 1000 = 6000
    ∧ documentedEstimate (some 5000) 0 2000 = 7000 := by
  refine ⟨by decide, by decide, ?_, by decide, by decide, by decide⟩
  have h : (DurationTimer.mount (some 5000) 0).shown [.tick 1000, .snapshot (some 1000) 2000]
      = [5000, 6000, 3000] := by decide
  rw [h]
  decide

/-- What holds of the code as it is: `startTimestamp` is the mount-time
reading after any events, and when clock readings never go back and the
server-reported durations never go back, every shown estimate is at least
every estimate shown before it. -/
theorem durationTimer_monotone (d : Option Int) (t0 : Int) (events : List TimerEvent)
    (hclock : clockOrdered t0 events = true)
    (hsnap : snapshotsOrdered (orZero d) events = true) :
    ((DurationTimer.mount d t0).run events).startTimestamp = t0
    ∧ List.Pairwise (· ≤ ·) ((DurationTimer.mount d t0).shown events) := by
  refine ⟨run_startTimestamp _ _, ?_⟩
  have hchain := shown_chain (DurationTimer.mount d t0) events t0 (orZero d)
    (le_refl _) (by simp [DurationTimer.mount]) hclock hsnap
  exact (List.pairwise_cons.mp (List.chain_iff_pairwise.mp hchain)).2

/-- Witness of `durationTimer_monotone`: snapshot 5000 at mount time 0, ticks,
and the snapshot 7000 arriving at 2000. -/
theorem durationTimer_monotone_witness :
    (((DurationTimer.mount (some 5000) 0).run
        [.tick 0, .tick 1000, .tick 2000, .snapshot (some 7000) 2000, .tick 3000]).startTimestamp = 0
    ∧ List.Pairwise (· ≤ ·) ((DurationTimer.mount (some 5000) 0).shown
        [.tick 0, .tick 1000, .tick 2000, .snapshot (some 7000) 2000, .tick 3000]))
    ∧ (DurationTimer.mount (some 5000) 0).shown
        [.tick 0, .tick 1000, .tick 2000, .snapshot (some 7000) 2000, .tick 3000]
        = [5000, 5000, 6000, 7000, 9000, 10000] :=
  ⟨durationTimer_monotone (some 5000) 0
      [.tick 0, .tick 1000, .tick 2000, .snapshot (some 7000) 2000, .tick 3000]
      (by decide) (by decide),
    by decide⟩

/-- C3 (the code at the failing input): snapshot 5000 at mount time 0, then
snapshot 7000 received at 2000. At clock reading 3000 the timer holds
7000 + (3000 - 0) = 10000, while the last snapshot plus the time since its
receipt is 7000 + (3000 - 2000) = 8000: the 2000 ms before the receipt are
counted twice. -/
theorem durationTimer_double_counts :
    ((DurationTimer.mount (some 5000) 0).run
        [.tick 0, .tick 1000, .tick 2000, .snapshot (some 7000) 2000, .tick 3000]).duration
      = 10000
    ∧ specEstimate (some 7000) 2000 3000 = 8000
    ∧ specEstimate (some 5000) 0 3000 = 8000 := by
  decide

/-! ## Refresh -/

theorem renderRow_key (L : List ScanJob) :
    (L.map renderRow).map Row.key = L.map ScanJob.scanId := by
  simp [List.map_map, Function.comp_def, renderRow]

/-- C4: a successful refresh carrying the list `L` makes the job collection
exactly `L` whatever the state before (so the scanIds present afterwards are
those of `L`), issues the single history request, and the view is then the
table whose rows are the rows of `L` in the order received, the empty view when
`L` is empty, or the error view when an error is held; the rows on screen are
never in another order. -/
theorem fetchHistory_replaces (s : TableState) (L : List ScanJob) :
    (fetchHistory s (.ok L)).1.history = L
    ∧ (∀ id, id ∈ (fetchHistory s (.ok L)).1.history.map ScanJob.scanId
          ↔ id ∈ L.map ScanJob.scanId)
    ∧ (fetchHistory s (.ok L)).2 = [.fetch "GET" "/api/analysis/history"]
    ∧ render (fetchHistory s (.ok L)).1 =
        (match errorShown s.error with
         | some message => .error message
         | none => if L = [] then .empty else .table (L.map renderRow))
    ∧ ((render (fetchHistory s (.ok L)).1).rows = L.map renderRow
        ∨ (render (fetchHistory s (.ok L)).1).rows = [])
    ∧ (L.map renderRow).map Row.key = L.map ScanJob.scanId := by
  have hr : render (fetchHistory s (.ok L)).1 =
        (match errorShown s.error with
         | some message => .error message
         | none => if L = [] then .empty else .table (L.map renderRow)) := by
    simp only [fetchHistory, fetchHistoryResume, render, Bool.false_eq_true, if_false,
      List.length_eq_zero]
  refine ⟨rfl, fun id => Iff.rfl, rfl, hr, ?_, renderRow_key L⟩
  rw [hr]
  cases errorShown s.error with
  | some message => right; rfl
  | none =>
    by_cases hL : L = []
    · right; simp [hL, View.rows]
    · left; simp [hL, View.rows]

/-- C5 (as stated, refuted): with one job on screen, a refresh answered with a
non-2xx status keeps the job in the collection but replaces the table by the
error view: the last known-good list is no longer displayed. -/
theorem fetchHistory_failure_hides_list :
    render { history := [{ scanId := "42", status := "COMPLETED", durationMs := some 5000 }],
             loading := false, error := none }
      = .table [renderRow { scanId := "42", status := "COMPLETED", durationMs := some 5000 }]
    ∧ (fetchHistory { history := [{ scanId := "42", status := "COMPLETED", durationMs := some 5000 }],
                      loading := false, error := none } .notOk).1.history
      = [{ scanId := "42", status := "COMPLETED", durationMs := some 5000 }]
    ∧ render (fetchHistory
        { history := [{ scanId := "42", status := "COMPLETED", durationMs := some 5000 }],
          loading := false, error := none } .notOk).1
      = .error "Failed to fetch history"
    ∧ (render (fetchHistory
        { history := [{ scanId := "42", status := "COMPLETED", durationMs := some 5000 }],
          loading := false, error := none } .notOk).1).rows = [] := by
  decide

/-- C5 (amended): a failed refresh (the request throws, the answer is not
2xx, or its body cannot be read) leaves the job collection equal to the
collection before it, clears `loading` and sets the error state to the
failure message (the message of the thrown error, or the fixed text for a
non-2xx answer); the view is then the error view with that message in place
of the list, unless the message is the empty string. -/
theorem fetchHistory_failure_keeps_history (s : TableState) (r : HistoryResponse)
    (hfail : r.isOk = false) :
    (fetchHistory s r).1.history = s.history
    ∧ (fetchHistory s r).1.loading = false
    ∧ ∃ message, (fetchHistory s r).1.error = some message
        ∧ (r = .notOk → message = "Failed to fetch history")
        ∧ (∀ thrown, r = .threw thrown → message = thrown)
        ∧ (∀ thrown, r = .badBody thrown → message = thrown)
        ∧ (message ≠ "" → render (fetchHistory s r).1 = .error message) := by
  cases r with
  | ok data => simp [HistoryResponse.isOk] at hfail
  | notOk =>
    refine ⟨rfl, rfl, "Failed to fetch history", rfl, fun _ => rfl,
      (fun _ h => by cases h), (fun _ h => by cases h), fun _ => ?_⟩
    simp [fetchHistory, fetchHistoryResume, render, errorShown]
  | threw message =>
    refine ⟨rfl, rfl, message, rfl, (fun h => by cases h),
      (fun _ h => by cases h; rfl), (fun _ h => by cases h), fun hm => ?_⟩
    simp [fetchHistory, fetchHistoryResume, render, errorShown, hm]
  | badBody message =>
    refine ⟨rfl, rfl, message, rfl, (fun h => by cases h),
      (fun _ h => by cases h), (fun _ h => by cases h; rfl), fun hm => ?_⟩
    simp [fetchHistory, fetchHistoryResume, render, errorShown, hm]

/-- Witness of `fetchHistory_failure_keeps_history`: a non-2xx answer while
one job is held. -/
theorem fetchHistory_failure_keeps_history_witness :
    HistoryResponse.notOk.isOk = false
    ∧ ((fetchHistory { history := [{ scanId := "42", status := "RUNNING", durationMs := none }],
                       loading := false, error := none } .notOk).1.history
        = [{ scanId := "42", status := "RUNNING", durationMs := none }]
      ∧ (fetchHistory { history := [{ scanId := "42", status := "RUNNING", durationMs := none }],
                        loading := false, error := none } .notOk).1.loading = false
      ∧ ∃ message,
          (fetchHistory { history := [{ scanId := "42", status := "RUNNING", durationMs := none }],
                          loading := false, error := none } .notOk).1.error = some message
          ∧ (HistoryResponse.notOk = .notOk → message = "Failed to fetch history")
          ∧ (∀ thrown, HistoryResponse.notOk = .threw thrown → message = thrown)
          ∧ (∀ thrown, HistoryResponse.notOk = .badBody thrown → message = thrown)
          ∧ (message ≠ "" →
              render (fetchHistory
                { history := [{ scanId := "42", status := "RUNNING", durationMs := none }],
                  loading := false, error := none } .notOk).1 = .error message)) :=
  ⟨rfl, fetchHistory_failure_keeps_history
      { history := [{ scanId := "42", status := "RUNNING", durationMs := none }],
        loading := false, error := none } .notOk rfl⟩

/-- C6 (the code at the failing input): after a refresh answered with a
non-2xx status, a later successful refresh carrying any list `L` stores `L`
but the view is still the error view: the `error` cell is never cleared. -/
theorem fetchHistory_error_sticks (s : TableState) (L : List ScanJob) :
    (fetchHistory (fetchHistory s .notOk).1 (.ok L)).1.history = L
    ∧ (fetchHistory (fetchHistory s .notOk).1 (.ok L)).1.error = some "Failed to fetch history"
    ∧ render (fetchHistory (fetchHistory s .notOk).1 (.ok L)).1
        = .error "Failed to fetch history"
    ∧ (render (fetchHistory (fetchHistory
          { history := [], loading := false, error := none } .notOk).1
          (.ok [{ scanId := "42", status := "RUNNING", durationMs := some 5000 }])).1).rows
        = [] := by
  refine ⟨rfl, rfl, ?_, by decide⟩
  simp [fetchHistory, fetchHistoryResume, render, errorShown]

/-! ## Cancel and delete -/

/-- C7 (as stated, refuted): the row of a PENDING job offers no cancel
button; its only button is delete. -/
theorem cancel_not_offered_pending :
    cancelOffered { scanId := "42", status := "PENDING", durationMs := none } = false
    ∧ rowActions { scanId := "42", status := "PENDING", durationMs := none } = [.delete "42"] := by
  decide

/-- C7 (amended): the cancel button is offered exactly when the status is
RUNNING; it is not offered for PENDING, COMPLETED, FAILED or CANCELLED, and
when offered it is the one cancel button, calling `handleCancel` with the
scanId of that row. -/
theorem cancel_offered_iff_running (item : ScanJob) :
    (cancelOffered item = true ↔ item.status = "RUNNING")
    ∧ (∀ id, Action.cancel id ∈ rowActions item ↔ (item.status = "RUNNING" ∧ id = item.scanId))
    ∧ cancelOffered { item with status := "PENDING" } = false
    ∧ cancelOffered { item with status := "COMPLETED" } = false
    ∧ cancelOffered { item with status := "FAILED" } = false
    ∧ cancelOffered { item with status := "CANCELLED" } = false := by
  have hmem : ∀ (it : ScanJob) (id : String),
      Action.cancel id ∈ rowActions it ↔ (it.status = "RUNNING" ∧ id = it.scanId) := by
    intro it id
    by_cases h1 : it.status = "COMPLETED" <;> by_cases h2 : it.status = "RUNNING" <;>
      simp [rowActions, h1, h2]
  have hoff : ∀ it : ScanJob, cancelOffered it = true ↔ it.status = "RUNNING" := by
    intro it
    simp [cancelOffered, hmem]
  have hnot : ∀ st : String, st ≠ "RUNNING" →
      cancelOffered { item with status := st } = false := by
    intro st hst
    cases h : cancelOffered { item with status := st } with
    | false => rfl
    | true => exact absurd ((hoff _).mp h) hst
  exact ⟨hoff item, hmem item, hnot _ (by decide), hnot _ (by decide), hnot _ (by decide),
    hnot _ (by decide)⟩

/-- Every failed cancel or delete leaves the state as it was and sends the
one write request only; a thrown request is followed by an alert. -/
theorem write_failure_frame (s : TableState) (scanId : String) (resp : WriteResponse)
    (refresh : HistoryResponse) (hfail : resp.failed = true) :
    (handleCancel s scanId resp refresh).1 = s
    ∧ (handleDelete s scanId true resp refresh).1 = s
    ∧ (handleCancel s scanId resp refresh).2.filter Effect.isRequest
        = [.fetch "POST" ("/api/analysis/history/" ++ scanId ++ "/cancel")]
    ∧ (handleDelete s scanId true resp refresh).2.filter Effect.isRequest
        = [.fetch "DELETE" ("/api/analysis/history/" ++ scanId)]
    ∧ (∀ message, resp = .threw message →
        (handleCancel s scanId resp refresh).2.filter Effect.isAlert
          = [.alert ("Ошибка при остановке анализа: " ++ message)]
        ∧ (handleDelete s scanId true resp refresh).2.filter Effect.isAlert
          = [.alert ("Ошибка при удалении: " ++ message)]) := by
  cases resp with
  | threw message =>
    refine ⟨rfl, rfl, rfl, rfl, ?_⟩
    intro m hm
    cases hm
    exact ⟨rfl, rfl⟩
  | status ok =>
    cases ok with
    | true => simp [WriteResponse.failed] at hfail
    | false =>
      refine ⟨rfl, rfl, rfl, rfl, ?_⟩
      intro m hm
      cases hm

/-- C8 (the code at the failing input): when the server answers a cancel or a
confirmed delete of scan 42 with a non-2xx status, the handler sends its one
request and does nothing else: the state is unchanged, nothing is retried, and
no alert is raised. -/
theorem write_failure_not_surfaced (s : TableState) (refresh : HistoryResponse) :
    WriteResponse.failed (.status false) = true
    ∧ handleCancel s "42" (.status false) refresh
        = (s, [.fetch "POST" "/api/analysis/history/42/cancel"])
    ∧ handleDelete s "42" true (.status false) refresh
        = (s, [.confirm "Вы уверены, что хотите удалить этот анализ?",
               .fetch "DELETE" "/api/analysis/history/42"])
    ∧ (handleCancel s "42" (.status false) refresh).2.filter Effect.isAlert = []
    ∧ (handleDelete s "42" true (.status false) refresh).2.filter Effect.isAlert = [] := by
  refine ⟨rfl, ?_, ?_, ?_, ?_⟩ <;> simp [handleCancel, handleDelete, Effect.isAlert]

/-- C9: `handleDelete(scanId)` first asks for confirmation. Declined: no
request, state unchanged. Confirmed: the requests sent are one DELETE of
`/api/analysis/history/{scanId}` for that scanId, followed, exactly when the
answer is 2xx, by the history request of `fetchHistory`, issued by the handler
itself and not by the poll timer. When that refresh succeeds with list `L`
the collection is `L` whatever it was before, so it contains `scanId` only if
`L` does. -/
theorem handleDelete_contract (s : TableState) (scanId : String) (resp : WriteResponse)
    (refresh : HistoryResponse) (L : List ScanJob) :
    handleDelete s scanId false resp refresh
        = (s, [.confirm "Вы уверены, что хотите удалить этот анализ?"])
    ∧ (handleDelete s scanId false resp refresh).2.filter Effect.isRequest = []
    ∧ (handleDelete s scanId true resp refresh).2.head?
        = some (.confirm "Вы уверены, что хотите удалить этот анализ?")
    ∧ (handleDelete s scanId true resp refresh).2.filter Effect.isRequest
        = .fetch "DELETE" ("/api/analysis/history/" ++ scanId)
            :: (if resp = .status true then [.fetch "GET" "/api/analysis/history"] else [])
    ∧ (handleDelete s scanId true (.status true) refresh).1 = (fetchHistory s refresh).1
    ∧ (handleDelete s scanId true (.status true) (.ok L)).1.history = L
    ∧ (scanId ∈ (handleDelete s scanId true (.status true) (.ok L)).1.history.map ScanJob.scanId
        ↔ scanId ∈ L.map ScanJob.scanId) := by
  refine ⟨rfl, rfl, ?_, ?_, rfl, rfl, Iff.rfl⟩
  · cases resp with
    | threw message => rfl
    | status ok => cases ok <;> rfl
  · cases resp with
    | threw message => rfl
    | status ok => cases ok <;> rfl

/-! ## Out-of-order poll responses -/

theorem deliver_cons (s : TableState) (d : TaggedResponse) (ds : List TaggedResponse) :
    deliver s (d :: ds) = deliver (fetchHistoryResume s d.response) ds := rfl

theorem deliver_history (s : TableState) (ds : List TaggedResponse) :
    (deliver s ds).history = (lastDelivered ds).getD s.history := by
  induction ds generalizing s with
  | nil => rfl
  | cons d ds ih =>
    rw [deliver_cons, ih]
    simp only [lastDelivered]
    cases hl : lastDelivered ds with
    | some data => rfl
    | none =>
      cases hr : d.response <;> simp [fetchHistoryResume]

theorem highestTagPayload_seq (ds : List TaggedResponse) (n : Nat) (best : List ScanJob)
    (h : highestTagPayload ds = some (n, best)) : n ∈ ds.map TaggedResponse.seq := by
  induction ds generalizing n best with
  | nil => simp [highestTagPayload] at h
  | cons d ds ih =>
    simp only [List.map_cons, List.mem_cons]
    cases hr : d.response with
    | ok data =>
      cases hb : highestTagPayload ds with
      | none =>
        simp only [highestTagPayload, hr, hb, Option.some.injEq, Prod.mk.injEq] at h
        exact Or.inl h.1.symm
      | some p =>
        obtain ⟨m, b⟩ := p
        simp only [highestTagPayload, hr, hb] at h
        split at h
        · simp only [Option.some.injEq, Prod.mk.injEq] at h
          exact Or.inl h.1.symm
        · simp only [Option.some.injEq, Prod.mk.injEq] at h
          exact Or.inr (h.1 ▸ ih m b hb)
    | notOk =>
      simp only [highestTagPayload, hr] at h
      exact Or.inr (ih n best h)
    | threw message =>
      simp only [highestTagPayload, hr] at h
      exact Or.inr (ih n best h)
    | badBody message =>
      simp only [highestTagPayload, hr] at h
      exact Or.inr (ih n best h)

theorem highestTagPayload_in_order (ds : List TaggedResponse)
    (horder : List.Pairwise (· < ·) (ds.map TaggedResponse.seq)) :
    (highestTagPayload ds).map Prod.snd = lastDelivered ds := by
  induction ds with
  | nil => rfl
  | cons d ds ih =>
    simp only [List.map_cons, List.pairwise_cons] at horder
    have ih2 := ih horder.2
    cases hb : highestTagPayload ds with
    | none =>
      rw [hb] at ih2
      cases hr : d.response <;>
        simp [highestTagPayload, lastDelivered, hr, hb, ← ih2]
    | some p =>
      obtain ⟨m, b⟩ := p
      rw [hb] at ih2
      have hm : ¬ m < d.seq := by
        have := horder.1 m (highestTagPayload_seq ds m b hb)
        omega
      cases hr : d.response <;>
        simp [highestTagPayload, lastDelivered, hr, hb, ← ih2, hm]

/-- C10 (as stated, refuted): response 2 (payload: job b) is delivered first
and the older response 1 (payload: job a) after it. The applied collection is
then the payload of response 1, not that of response 2, the highest tag
delivered: the stale response is applied, not discarded. -/
theorem deliver_stale_overwrites :
    (deliver TableState.init
        [ { seq := 2, response := .ok [{ scanId := "b", status := "RUNNING", durationMs := none }] },
          { seq := 1, response := .ok [{ scanId := "a", status := "RUNNING", durationMs := none }] }
        ]).history
      = [{ scanId := "a", status := "RUNNING", durationMs := none }]
    ∧ highestTagPayload
        [ { seq := 2, response := .ok [{ scanId := "b", status := "RUNNING", durationMs := none }] },
          { seq := 1, response := .ok [{ scanId := "a", status := "RUNNING", durationMs := none }] }
        ]
      = some (2, [{ scanId := "b", status := "RUNNING", durationMs := none }]) := by
  decide

/-- C10 (amended): for every sequence of poll responses delivered in any
order, the applied job collection after the deliveries is the payload of the
successful response delivered last (the collection held before, if none was
successful); when the responses are delivered in issue order this is the
payload of the highest sequence tag delivered so far. -/
theorem deliver_last_wins (s : TableState) (ds : List TaggedResponse) :
    (deliver s ds).history = (lastDelivered ds).getD s.history
    ∧ (List.Pairwise (· < ·) (ds.map TaggedResponse.seq) →
        (deliver s ds).history = ((highestTagPayload ds).map Prod.snd).getD s.history) := by
  refine ⟨deliver_history s ds, fun horder => ?_⟩
  rw [deliver_history, highestTagPayload_in_order ds horder]

/-- Witness of `deliver_last_wins`: responses 1 and 2 delivered in issue
order. -/
theorem deliver_last_wins_witness :
    List.Pairwise (· < ·)
        (([ { seq := 1, response := .ok [{ scanId := "a", status := "RUNNING", durationMs := none }] },
            { seq := 2, response := .ok [{ scanId := "b", status := "RUNNING", durationMs := none }] }
          ] : List TaggedResponse).map TaggedResponse.seq)
    ∧ (deliver TableState.init
        [ { seq := 1, response := .ok [{ scanId := "a", status := "RUNNING", durationMs := none }] },
          { seq := 2, response := .ok [{ scanId := "b", status := "RUNNING", durationMs := none }] }
        ]).history
      = ((highestTagPayload
        [ { seq := 1, response := .ok [{ scanId := "a", status := "RUNNING", durationMs := none }] },
          { seq := 2, response := .ok [{ scanId := "b", status := "RUNNING", durationMs := none }] }
        ]).map Prod.snd).getD TableState.init.history :=
  ⟨by decide,
   (deliver_last_wins TableState.init
      [ { seq := 1, response := .ok [{ scanId := "a", status := "RUNNING", durationMs := none }] },
        { seq := 2, response := .ok [{ scanId := "b", status := "RUNNING", durationMs := none }] }
      ]).2 (by decide)⟩

/-! ## Unmount -/

theorem step_unmounted (p : Poller) (e : PollEvent)
    (hm : p.mounted = false) (hi : p.interval = false) :
    (p.step e).mounted = false ∧ (p.step e).interval = false
    ∧ (p.step e).requests = p.requests
    ∧ (p.step e).resumed + (p.step e).inFlight = p.resumed + p.inFlight := by
  cases e with
  | timer => simp [Poller.step, hm, hi]
  | deliver r =>
    simp only [Poller.step]
    split
    · exact ⟨hm, hi, rfl, rfl⟩
    · refine ⟨hm, hi, rfl, ?_⟩
      simp only
      omega
  | unmount => simp [Poller.step]

theorem run_unmounted (p : Poller) (events : List PollEvent)
    (hm : p.mounted = false) (hi : p.interval = false) :
    (p.run events).mounted = false ∧ (p.run events).interval = false
    ∧ (p.run events).requests = p.requests
    ∧ (p.run events).resumed + (p.run events).inFlight = p.resumed + p.inFlight := by
  induction events generalizing p with
  | nil => exact ⟨hm, hi, rfl, rfl⟩
  | cons e es ih =>
    obtain ⟨h1, h2, h3, h4⟩ := step_unmounted p e hm hi
    obtain ⟨k1, k2, k3, k4⟩ := ih (p.step e) h1 h2
    exact ⟨k1, k2, k3.trans h3, k4.trans h4⟩

theorem run_timers_unmounted (p : Poller) (n : Nat) (hi : p.interval = false) :
    p.run (List.replicate n .timer) = p := by
  induction n with
  | zero => rfl
  | succ k ih =>
    simp only [List.replicate_succ, Poller.run, List.foldl_cons] at ih ⊢
    have hstep : p.step .timer = p := by simp [Poller.step, hi]
    rw [hstep]
    exact ih

/-- C11 (as stated, refuted): the view is unmounted while the first poll
request is in flight. When its response arrives, the continuation of
`fetchHistory` runs and makes its setter calls: with a 2xx answer carrying one
job, `history` becomes that list and `loading` becomes false; with a non-2xx
answer the error is set. The result is not discarded. -/
theorem unmount_inflight_applied :
    (Poller.mount.run [.unmount]).mounted = false
    ∧ (Poller.mount.run [.unmount]).state = TableState.init
    ∧ (Poller.mount.run [.unmount]).inFlight = 1
    ∧ (Poller.mount.run
        [.unmount,
         .deliver (.ok [{ scanId := "42", status := "RUNNING", durationMs := some 5000 }])]).state
      = { history := [{ scanId := "42", status := "RUNNING", durationMs := some 5000 }],
          loading := false, error := none }
    ∧ (Poller.mount.run
        [.unmount,
         .deliver (.ok [{ scanId := "42", status := "RUNNING", durationMs := some 5000 }])]).resumed
      = 1
    ∧ (Poller.mount.run [.unmount, .deliver .notOk]).state
      = { history := [], loading := false, error := some "Failed to fetch history" } := by
  decide

/-- C11 (amended): once the view is unmounted, whatever happens next (timer
periods elapsing, responses arriving, in any number and order), the poll timer
issues no further request and the interval stays cleared, so the only
continuations that can still run are those of the requests in flight at
unmount (continuations run plus requests in flight stays constant); timer
periods alone change nothing. A request in flight at unmount is not aborted:
when its response arrives its continuation makes the same setter calls as
before unmount. -/
theorem unmount_timer_quiescent (p : Poller) (events : List PollEvent) (n : Nat)
    (r : HistoryResponse) :
    ((p.step .unmount).run events).requests = p.requests
    ∧ ((p.step .unmount).run events).interval = false
    ∧ ((p.step .unmount).run events).mounted = false
    ∧ ((p.step .unmount).run events).resumed + ((p.step .unmount).run events).inFlight
        = p.resumed + p.inFlight
    ∧ (p.step .unmount).run (List.replicate n .timer) = p.step .unmount
    ∧ ((p.step .unmount).step (.deliver r)).state
        = (if p.inFlight = 0 then p.state else fetchHistoryResume p.state r)
    ∧ ((p.step .unmount).step (.deliver r)).state = (p.step (.deliver r)).state := by
  obtain ⟨h1, h2, h3, h4⟩ := run_unmounted (p.step .unmount) events rfl rfl
  refine ⟨h3, h2, h1, h4, run_timers_unmounted _ n rfl, ?_, ?_⟩
  · simp only [Poller.step]
    split <;> rfl
  · simp only [Poller.step]
    split <;> rfl

/-! ## Duration of finished jobs -/

theorem formatDuration_orZero (d : Option Int) :
    formatDuration (some (orZero d)) = formatDuration d := by
  cases d with
  | none => simp [orZero, formatDuration]
  | some x => rfl

/-- C15: the duration cell of a row whose status is not RUNNING is the fixed
text `formatDuration(durationMs)`, computed from the server value alone (a
RUNNING row gets a timer instead). For `ms > 0`, with `T = ms / 1000` the
floor of `ms / 1000`, `M = T / 60` and `S = T % 60`: `0 ≤ S < 60`,
`60 * M + S = T`, and the text is `Mм Sс` when `M > 0` and `Sс` otherwise. The
text is `0с` when `ms` is absent, zero or negative. The copy inside
`DurationTimer`, which prints the estimate of a timer, is the same function. -/
theorem formatDuration_contract (item : ScanJob) (ms : Int) :
    (renderRow item).duration
        = (if item.status = "RUNNING" then .timer item.durationMs
           else .text (formatDuration item.durationMs))
    ∧ (0 < ms →
        1000 * (ms / 1000) ≤ ms ∧ ms < 1000 * (ms / 1000) + 1000
        ∧ 60 * (ms / 1000 / 60) ≤ ms / 1000 ∧ ms / 1000 < 60 * (ms / 1000 / 60) + 60
        ∧ 0 ≤ ms / 1000 / 60
        ∧ 0 ≤ ms / 1000 % 60 ∧ ms / 1000 % 60 < 60
        ∧ 60 * (ms / 1000 / 60) + ms / 1000 % 60 = ms / 1000
        ∧ formatDuration (some ms)
            = if ms / 1000 / 60 > 0 then
                toString (ms / 1000 / 60) ++ "м " ++ toString (ms / 1000 % 60) ++ "с"
              else toString (ms / 1000 % 60) ++ "с")
    ∧ (ms ≤ 0 → formatDuration (some ms) = "0с")
    ∧ formatDuration none = "0с"
    ∧ (∀ x, DurationTimer.formatDuration x = formatDuration x)
    ∧ (∀ t : DurationTimer, t.render = formatDuration (some t.duration)) := by
  refine ⟨?_, ?_, ?_, rfl, fun x => rfl, fun t => rfl⟩
  · simp only [renderRow, formatDuration_orZero]
  · intro hpos
    refine ⟨by omega, by omega, by omega, by omega, by omega, by omega, by omega, by omega, ?_⟩
    have hne : ¬ (ms = 0 ∨ ms < 0) := by omega
    simp only [formatDuration, hne, if_false]
  · intro hle
    have hle2 : ms = 0 ∨ ms < 0 := by omega
    simp only [formatDuration, hle2, if_true]

/-- Witness of `formatDuration_contract`: a COMPLETED job of 125000 ms shows
the fixed text of 2 minutes 5 seconds; 45000 ms shows 45 seconds. -/
theorem formatDuration_contract_witness :
    (0 : Int) < 125000
    ∧ (renderRow { scanId := "42", status := "COMPLETED", durationMs := some 125000 }).duration
        = .text "2м 5с"
    ∧ formatDuration (some 125000) = "2м 5с"
    ∧ formatDuration (some 45000) = "45с"
    ∧ formatDuration (some 999) = "0с" := by
  have h := formatDuration_contract
    { scanId := "42", status := "COMPLETED", durationMs := some 125000 } 125000
  have h2 := (h.2.1 (by decide)).2.2.2.2.2.2.2.2
  refine ⟨by decide, ?_, ?_, ?_, ?_⟩
  · rw [h.1]
    decide
  · rw [h2]
    decide
  · decide
  · decide

end ScanHistory

namespace ResultsPage

open ScanHistory (ReportEffect PdfResponse saveBlob objectPrototypeKeys handleDownloadPdf Action)

/-! ## Severity classes -/

/-- What holds of `getSeverityClass` on every input: the five known
severities get five pairwise different classes, an absent severity and every
string that is neither known nor the name of an inherited member get
`severity-info`. -/
theorem getSeverityClass_default (key : String)
    (hknown : key ∉ ["CRITICAL", "HIGH", "MEDIUM", "LOW", "INFO"])
    (hproto : key ∉ objectPrototypeKeys) :
    getSeverityClass (some key) = .str "severity-info"
    ∧ getSeverityClass none = .str "severity-info"
    ∧ getSeverityClass (some "UNKNOWN_X") = .str "severity-info"
    ∧ List.Nodup (["CRITICAL", "HIGH", "MEDIUM", "LOW", "INFO"].map
        (fun k => getSeverityClass (some k)))
    ∧ ["CRITICAL", "HIGH", "MEDIUM", "LOW", "INFO"].map (fun k => getSeverityClass (some k))
        = [.str "severity-critical", .str "severity-high", .str "severity-medium",
           .str "severity-low", .str "severity-info"] := by
  refine ⟨?_, rfl, by decide, by decide, by decide⟩
  simp only [List.mem_cons, List.mem_singleton, List.not_mem_nil, or_false, not_or] at hknown
  obtain ⟨h1, h2, h3, h4, h5⟩ := hknown
  simp only [getSeverityClass, h1, h2, h3, h4, h5, hproto, if_false]

/-- C12 (the code at the failing input): for the severity `constructor`, a
string that is none of the five known values, the lookup finds the member
inherited from `Object.prototype` and `getSeverityClass` returns it instead of
`severity-info`; the same happens for `toString`. Nothing is thrown, and
`UNKNOWN_X` and an absent severity do get `severity-info`. -/
theorem getSeverityClass_inherited_key :
    getSeverityClass (some "constructor") = .inherited "constructor"
    ∧ getSeverityClass (some "constructor") ≠ .str "severity-info"
    ∧ getSeverityClass (some "toString") = .inherited "toString"
    ∧ (renderVulnerability
        { severity := some "constructor", owaspCategory := none, title := none,
          description := none, endpoint := none, method := none, evidence := none,
          recommendation := none }).className = .inherited "constructor"
    ∧ getSeverityClass (some "UNKNOWN_X") = .str "severity-info"
    ∧ getSeverityClass none = .str "severity-info" := by
  decide

/-! ## Sections of a loaded result -/

/-- C13: for every loaded result the page is shown, and on it the "no issues"
block is rendered exactly when `vulnerabilities` is absent or empty and
`contractMismatches` is absent or empty, which is exactly when neither the
vulnerabilities section nor the mismatches table is rendered; a section that is
rendered is never empty, the vulnerabilities section is rendered exactly when
the list is present and non-empty (likewise the table), and the two counts
shown are the lengths of the sequences, 0 when absent. -/
theorem renderResult_noIssues (result : ScanResult) :
    render { result := some result, loading := false, error := none }
        = .page (renderResult result)
    ∧ ((renderResult result).noIssues = true
        ↔ ((result.vulnerabilities = none ∨ result.vulnerabilities = some [])
            ∧ (result.contractMismatches = none ∨ result.contractMismatches = some [])))
    ∧ ((renderResult result).noIssues = true
        ↔ ((renderResult result).vulnerabilitiesSection = none
            ∧ (renderResult result).mismatchesSection = none))
    ∧ (renderResult result).vulnerabilitiesSection ≠ some []
    ∧ (renderResult result).mismatchesSection ≠ some []
    ∧ ((renderResult result).vulnerabilitiesSection
        = if result.vulnerabilities = none ∨ result.vulnerabilities = some [] then none
          else some ((result.vulnerabilities.getD []).map renderVulnerability))
    ∧ ((renderResult result).mismatchesSection
        = if result.contractMismatches = none ∨ result.contractMismatches = some [] then none
          else some (result.contractMismatches.getD []))
    ∧ (renderResult result).vulnerabilitiesCard = (result.vulnerabilities.getD []).length
    ∧ (renderResult result).mismatchesCard = (result.contractMismatches.getD []).length := by
  obtain ⟨te, vs, ms, sm⟩ := result
  refine ⟨rfl, ?_, ?_, ?_, ?_, ?_, ?_, ?_, ?_⟩
  · cases vs with
    | none => cases ms with
      | none => simp [renderResult]
      | some m => cases m <;> simp [renderResult]
    | some v => cases ms with
      | none => cases v <;> simp [renderResult]
      | some m => cases v <;> cases m <;> simp [renderResult]
  · cases vs with
    | none => cases ms with
      | none => simp [renderResult]
      | some m => cases m <;> simp [renderResult]
    | some v => cases ms with
      | none => cases v <;> simp [renderResult]
      | some m => cases v <;> cases m <;> simp [renderResult]
  · cases vs with
    | none => simp [renderResult]
    | some v => cases v <;> simp [renderResult]
  · cases ms with
    | none => simp [renderResult]
    | some m => cases m <;> simp [renderResult]
  · cases vs with
    | none => simp [renderResult]
    | some v => cases v <;> simp [renderResult]
  · cases ms with
    | none => simp [renderResult]
    | some m => cases m <;> simp [renderResult]
  · cases vs <;> rfl
  · cases ms <;> rfl

/-! ## Report download -/

/-- C14: on both PDF paths (`downloadReport('pdf')` of the page and
`handleDownloadPdf` of the table), a 2xx answer whose body is read makes the
run: fetch `/api/reports/{scanId}/PDF`, create one object URL from the body,
append, click and remove a link to it that downloads `report-{scanId}.pdf`,
revoke that same URL as the last step. When the request throws, the answer is
not 2xx or the body cannot be read, no object URL is created and one alert is
raised. For HTML and JSON nothing is fetched: the resource
`/api/reports/{scanId}/HTML` or `/JSON_EXTENDED` is only opened, from the page
and from the buttons of the table. -/
theorem pdf_download_releases (scanId : String) (blob : List Nat) (objectUrl message : String)
    (resp : PdfResponse) :
    (downloadReport scanId .pdf (.ok blob) objectUrl
        = [ .fetch ("/api/reports/" ++ scanId ++ "/PDF"),
            .createObjectURL blob objectUrl,
            .linkAppend objectUrl ("report-" ++ scanId ++ ".pdf"),
            .linkClick objectUrl ("report-" ++ scanId ++ ".pdf"),
            .linkRemove,
            .revokeObjectURL objectUrl ]
      ∧ handleDownloadPdf scanId (.ok blob) objectUrl
          = downloadReport scanId .pdf (.ok blob) objectUrl)
    ∧ (ReportEffect.created (downloadReport scanId .pdf (.ok blob) objectUrl) = [objectUrl]
      ∧ ReportEffect.revoked (downloadReport scanId .pdf (.ok blob) objectUrl) = [objectUrl]
      ∧ (downloadReport scanId .pdf (.ok blob) objectUrl).getLast?
          = some (.revokeObjectURL objectUrl)
      ∧ ReportEffect.alerts (downloadReport scanId .pdf (.ok blob) objectUrl) = [])
    ∧ (ReportEffect.created (downloadReport scanId .pdf .notOk objectUrl) = []
      ∧ ReportEffect.alerts (downloadReport scanId .pdf .notOk objectUrl)
          = ["Ошибка при скачивании отчета: Failed to download PDF"]
      ∧ ReportEffect.created (downloadReport scanId .pdf (.threw message) objectUrl) = []
      ∧ ReportEffect.alerts (downloadReport scanId .pdf (.threw message) objectUrl)
          = ["Ошибка при скачивании отчета: " ++ message]
      ∧ ReportEffect.created (downloadReport scanId .pdf (.badBody message) objectUrl) = []
      ∧ ReportEffect.alerts (downloadReport scanId .pdf (.badBody message) objectUrl)
          = ["Ошибка при скачивании отчета: " ++ message])
    ∧ (ReportEffect.created (handleDownloadPdf scanId .notOk objectUrl) = []
      ∧ ReportEffect.alerts (handleDownloadPdf scanId .notOk objectUrl)
          = ["Ошибка при скачивании PDF: Failed to download PDF"]
      ∧ ReportEffect.created (handleDownloadPdf scanId (.threw message) objectUrl) = []
      ∧ ReportEffect.alerts (handleDownloadPdf scanId (.threw message) objectUrl)
          = ["Ошибка при скачивании PDF: " ++ message]
      ∧ ReportEffect.created (handleDownloadPdf scanId (.badBody message) objectUrl) = []
      ∧ ReportEffect.alerts (handleDownloadPdf scanId (.badBody message) objectUrl)
          = ["Ошибка при скачивании PDF: " ++ message])
    ∧ (downloadReport scanId .html resp objectUrl
          = [.openTab ("/api/reports/" ++ scanId ++ "/HTML")]
      ∧ downloadReport scanId .json resp objectUrl
          = [.openTab ("/api/reports/" ++ scanId ++ "/JSON_EXTENDED")]
      ∧ ReportEffect.fetched (downloadReport scanId .html resp objectUrl) = []
      ∧ ReportEffect.fetched (downloadReport scanId .json resp objectUrl) = []
      ∧ (ScanHistory.rowActions
            { scanId := scanId, status := "COMPLETED", durationMs := none }).map
          (Action.report resp objectUrl)
          = [ [],
              [.openTab ("/api/reports/" ++ scanId ++ "/HTML")],
              [.openTab ("/api/reports/" ++ scanId ++ "/JSON_EXTENDED")],
              handleDownloadPdf scanId resp objectUrl,
              [] ]) := by
  have hurl : ∀ kind : String,
      "/api/reports/" ++ scanId ++ "/" ++ kind = "/api/reports/" ++ scanId ++ ("/" ++ kind) :=
    fun kind => String.append_assoc _ _ _
  have hpdf : downloadReport scanId .pdf (.ok blob) objectUrl
      = [ .fetch ("/api/reports/" ++ scanId ++ "/PDF"),
          .createObjectURL blob objectUrl,
          .linkAppend objectUrl ("report-" ++ scanId ++ ".pdf"),
          .linkClick objectUrl ("report-" ++ scanId ++ ".pdf"),
          .linkRemove,
          .revokeObjectURL objectUrl ] := by
    simp only [downloadReport, formatMap, saveBlob, if_true, hurl]
    rfl
  have hhtml : downloadReport scanId .html resp objectUrl
      = [.openTab ("/api/reports/" ++ scanId ++ "/HTML")] := by
    simp only [downloadReport, formatMap, hurl]
    rfl
  have hjson : downloadReport scanId .json resp objectUrl
      = [.openTab ("/api/reports/" ++ scanId ++ "/JSON_EXTENDED")] := by
    simp only [downloadReport, formatMap, hurl]
    rfl
  refine ⟨⟨hpdf, ?_⟩, ⟨rfl, rfl, rfl, rfl⟩, ⟨rfl, rfl, rfl, rfl, rfl, rfl⟩,
    ⟨rfl, rfl, rfl, rfl, rfl, rfl⟩, ⟨hhtml, hjson, ?_, ?_, ?_⟩⟩
  · rw [hpdf]
    rfl
  · rw [hhtml]
    rfl
  · rw [hjson]
    rfl
  · simp [ScanHistory.rowActions, Action.report]

end ResultsPage
